import Mathlib

/-!
# Shallow embedding of mdbookshelf (dieterplex/mdbookshelf)

This file embeds the synchronization-and-aggregation pipeline of the
mdbookshelf crate: the data model (`src/config.rs`, `src/lib.rs`), the
pipeline driver `run` (`src/lib.rs`), the repository synchronizer
`clone_or_fetch_repo` (`src/git.rs`, trait `GitOp`), the generation adapter
`Book::generate_epub` (`src/book.rs`), and the tolerant `Config`
deserializer (`src/config.rs`).

External collaborators (git2, the url crate, mdbook/mdbook-epub, tera,
serde_json, chrono, the filesystem) are out of scope of the design and are
modelled as explicit oracle parameters bundled in environment structures:
the embedded functions are parameterised over them exactly at the call
sites where the Rust code calls into the collaborator.  File writes and
collaborator invocations are recorded in an explicit event trace so that
"X was not performed" is a statement about the trace.  Rust panics
(`unwrap`, `assert_eq!`, `expect`) terminate the run just like `Err`
propagation does; they are modelled as a distinguished error outcome.
Logging (`log::info!`/`warn!`/`trace!`) has no observable effect on the
pipeline's results and is not modelled.
-/

set_option autoImplicit false

namespace Mdbookshelf

/-- A TOML value (`toml::Value`), restricted to the variants the
configuration format uses (strings, integers, booleans, arrays, tables).
Tables are ordered association lists. -/
inductive Toml where
  | str : String → Toml
  | int : Int → Toml
  | bool : Bool → Toml
  | arr : List Toml → Toml
  | table : List (String × Toml) → Toml

/-- `BookRepoConfig` from `src/config.rs`: one configured shelf entry. -/
structure BookRepoConfig where
  title : Option String
  folder : Option String
  repo_url : String
  url : String
  env_var : Option (List (String × Toml))

/-- `Config` from `src/config.rs`: the top-level bookshelf configuration.
Paths (`PathBuf`) are modelled as strings. -/
structure Config where
  book_repo_configs : List BookRepoConfig
  destination_dir : Option String
  templates_dir : Option String
  title : String
  working_dir : Option String

/-- The `Default::default()` value of `Config` (all fields defaulted). -/
def Config.defaultValue : Config :=
  { book_repo_configs := []
  , destination_dir := none
  , templates_dir := none
  , title := ""
  , working_dir := none }

/-- `ManifestEntry` from `src/lib.rs`. -/
structure ManifestEntry where
  commit_sha : String
  epub_size : Nat
  last_modified : String
  path : String
  repo_url : String
  title : String
  url : String

/-- `Manifest` from `src/lib.rs`. -/
structure Manifest where
  entries : List ManifestEntry
  timestamp : String
  title : String

/-- `Path::join` on string paths: joining an absolute right operand
replaces the left operand, otherwise the native separator is inserted
(the crate runs on a `/`-separator platform; the `cfg!(windows)`
backslash normalization branch in the source is dead there). -/
def pathJoin (a b : String) : String :=
  if b.data.head? = some '/' then b else if a = "" then b else a ++ "/" ++ b

/-- Observable events of one `mdbookshelf::run` invocation. -/
inductive REvent where
  | clockRead
  | syncE (url wd : String)
  | genE (path dest : String)
  | write (path content : String)

/-- The oracle bundle for `run` (`src/lib.rs`): the per-entry operations
(`clone_or_fetch_repo`, `generate_epub`) as the narrow seams the design
names, plus the output-stage collaborators (`tera`, `walkdir`,
`serde_json`) and the clock (`Utc::now().to_rfc3339()`).  `walk` returns
the paths of the non-directory entries found under the templates
directory, relative to it (the `WalkDir` + `strip` loop of the source);
`render` and `toJsonPretty` are the template engine and the JSON
serializer, modelled as total (their failures panic or abort the run and
no claim is about them). -/
structure RunEnv where
  now : String
  sync : String → String → Except String (String × String × String)
  generate : String → String → Except String (Option String × String × Nat)
  teraNew : String → Except String Unit
  walk : String → List String
  render : String → Manifest → String
  toJsonPretty : Manifest → String

/-- Title resolution from `src/lib.rs` (`run`, the manifest-entry
construction): `repo_config.title.to_owned().or(book_title).unwrap_or_default()`. -/
def resolveTitle (cfgTitle bookTitle : Option String) : String :=
  (cfgTitle.or bookTitle).getD ""

/-- One iteration of the `for repo_config in &config.book_repo_configs`
loop in `run` (`src/lib.rs`): synchronize, append the optional
sub-folder, generate, and build the `ManifestEntry`.  Returns the trace
of collaborator events next to the result. -/
def entryStep (env : RunEnv) (wd dest : String) (rc : BookRepoConfig) :
    List REvent × Except String ManifestEntry :=
  match env.sync rc.repo_url wd with
  | .error e => ([REvent.syncE rc.repo_url wd], .error e)
  | .ok (repoPath0, sha, lastModified) =>
    let repoPath := match rc.folder with
      | some f => pathJoin repoPath0 f
      | none => repoPath0
    match env.generate repoPath dest with
    | .error e => ([REvent.syncE rc.repo_url wd, REvent.genE repoPath dest], .error e)
    | .ok (bookTitle, outPath, sz) =>
      ([REvent.syncE rc.repo_url wd, REvent.genE repoPath dest],
       .ok { commit_sha := sha
           , epub_size := sz
           , last_modified := lastModified
           , path := outPath
           , repo_url := rc.repo_url
           , title := resolveTitle rc.title bookTitle
           , url := rc.url })

/-- The entry loop of `run`: processes the configs in order, stopping at
the first failing entry (the `?` operators in the loop body). -/
def processEntries (env : RunEnv) (wd dest : String) :
    List BookRepoConfig → List REvent × Except String (List ManifestEntry)
  | [] => ([], .ok [])
  | rc :: rest =>
    match entryStep env wd dest rc with
    | (tr, .error e) => (tr, .error e)
    | (tr, .ok entry) =>
      match processEntries env wd dest rest with
      | (tr2, .error e) => (tr ++ tr2, .error e)
      | (tr2, .ok entries) => (tr ++ tr2, .ok (entry :: entries))

/-- `mdbookshelf::run` from `src/lib.rs`.  `Manifest::new()` reads the
clock first; the `unwrap`s on `destination_dir`/`working_dir` panic when
unset (modelled as an error outcome); then each configured entry is
processed in order and, only if all succeeded, the output stage runs:
template mode when `templates_dir` is set (`Tera::new` on the
`templates_dir/**/*` pattern, then one rendered write per walked file at
the same relative path under `dest`), JSON mode otherwise (one write of
the pretty-printed manifest to `dest/manifest.json`). -/
def run (env : RunEnv) (config : Config) : List REvent × Except String Manifest :=
  match config.destination_dir, config.working_dir with
  | some dest, some wd =>
    match processEntries env wd dest config.book_repo_configs with
    | (tr, .error e) => (REvent.clockRead :: tr, .error e)
    | (tr, .ok entries) =>
      let manifest : Manifest :=
        { entries := entries, timestamp := env.now, title := config.title }
      match config.templates_dir with
      | some tdir =>
        match env.teraNew (pathJoin tdir "**/*") with
        | .error e => (REvent.clockRead :: tr, .error e)
        | .ok _ =>
          (REvent.clockRead :: tr ++ (env.walk tdir).map
              (fun rel => REvent.write (pathJoin dest rel) (env.render rel manifest)),
           .ok manifest)
      | none =>
        (REvent.clockRead ::
           tr ++ [REvent.write (pathJoin dest "manifest.json") (env.toJsonPretty manifest)],
         .ok manifest)
  | _, _ => ([REvent.clockRead], .error "called Option::unwrap on a None value")

/-- The file writes contained in an event trace. -/
def writesOf : List REvent → List (String × String)
  | [] => []
  | REvent.write p c :: tr => (p, c) :: writesOf tr
  | REvent.clockRead :: tr => writesOf tr
  | REvent.syncE _ _ :: tr => writesOf tr
  | REvent.genE _ _ :: tr => writesOf tr

/-- Whether an event is a clock read (`Utc::now()`). -/
def isClockRead : REvent → Bool
  | REvent.clockRead => true
  | _ => false

/-- Number of clock reads in a trace. -/
def clockReadCount (tr : List REvent) : Nat :=
  (tr.filter isClockRead).length

/-! ## Repository synchronizer (`src/git.rs`, trait `GitOp`) -/

/-- The result of `url::Url::parse`, restricted to what the synchronizer
reads from it: the `path()` component (for hierarchical URLs it begins
with a path separator). -/
structure Url where
  path : String

/-- The HEAD commit data the synchronizer extracts
(`repo.head()?.peel_to_commit()?`): its id as a lowercase hex string and
its authorship time in seconds since the epoch. -/
structure GitCommit where
  id : String
  seconds : Int

/-- A named remote (`git2::Remote`): `remote.url()` is `None` when the
configured URL is not valid utf-8. -/
structure GitRemote where
  url : Option String

/-- Oracle bundle for the version-control collaborator (git2 and the url
crate), over an abstract repository handle type `ρ`.  `toRfc3339` is
chrono's `Utc.timestamp(secs, 0).to_rfc3339()`. -/
structure GitEnv (ρ : Type) where
  parseUrl : String → Option Url
  openRepo : String → Except String ρ
  findRemote : ρ → String → Except String GitRemote
  fetch : GitRemote → List String → Except String Unit
  cloneRepo : String → String → Except String ρ
  headCommit : ρ → Except String GitCommit
  toRfc3339 : Int → String

/-- Observable events of one `clone_or_fetch_repo` call. -/
inductive GitEvent where
  | openR (dest : String)
  | fetchB (remoteUrl : String) (branches : List String)
  | cloneR (url dest : String)

/-- Failure outcomes of the synchronizer: a propagated `git2::Error`
(via `?`) or a Rust panic (`assert_eq!` / `unwrap`). -/
inductive GitErr where
  | err : String → GitErr
  | panicked : String → GitErr

/-- The `assert_eq!` message in `GitOp::clone_or_fetch_repo`. -/
def remoteMismatchMsg : String :=
  "Remote url for origin and requested url do not match"

/-- The local destination directory computed at the top of
`GitOp::clone_or_fetch_repo` (`src/git.rs`): if `Url::parse` succeeds the
repo path is `&parsed_url.path()[1..]` (the initial separator byte is
skipped), otherwise the input is taken as a local repo path; either way it
is joined under `working_dir`.  (The `cfg!(windows)` backslash
normalization branch is dead on the `/`-separator platform.) -/
def syncDest (parse : String → Option Url) (working_dir url : String) : String :=
  match parse url with
  | some u => pathJoin working_dir (u.path.drop 1)
  | none => pathJoin working_dir url

/-- `GitOp::clone_or_fetch_repo` from `src/git.rs`: compute the
destination, try to open it as an existing repository; on success find
the remote named "origin", `assert_eq!` its URL against the requested one
(panic on mismatch) and fetch the `master` branch; on open failure clone
the URL into the destination.  Either way, resolve HEAD and return
`(dest, commit hex id, authorship time as RFC3339)`. -/
def clone_or_fetch_repo {ρ : Type} (env : GitEnv ρ) (url working_dir : String) :
    List GitEvent × Except GitErr (String × String × String) :=
  let dest := syncDest env.parseUrl working_dir url
  match env.openRepo dest with
  | .ok repo =>
    match env.findRemote repo "origin" with
    | .error e => ([GitEvent.openR dest], .error (.err e))
    | .ok remote =>
      match remote.url with
      | none => ([GitEvent.openR dest],
                 .error (.panicked "called Option::unwrap on a None value"))
      | some remoteUrl =>
        if remoteUrl = url then
          match env.fetch remote ["master"] with
          | .error e =>
            ([GitEvent.openR dest, GitEvent.fetchB remoteUrl ["master"]], .error (.err e))
          | .ok _ =>
            match env.headCommit repo with
            | .error e =>
              ([GitEvent.openR dest, GitEvent.fetchB remoteUrl ["master"]], .error (.err e))
            | .ok c =>
              ([GitEvent.openR dest, GitEvent.fetchB remoteUrl ["master"]],
               .ok (dest, c.id, env.toRfc3339 c.seconds))
        else ([GitEvent.openR dest], .error (.panicked remoteMismatchMsg))
  | .error _ =>
    match env.cloneRepo url dest with
    | .error e => ([GitEvent.openR dest, GitEvent.cloneR url dest], .error (.err e))
    | .ok repo =>
      match env.headCommit repo with
      | .error e => ([GitEvent.openR dest, GitEvent.cloneR url dest], .error (.err e))
      | .ok c =>
        ([GitEvent.openR dest, GitEvent.cloneR url dest],
         .ok (dest, c.id, env.toRfc3339 c.seconds))

/-! ## Generation adapter (`src/book.rs`, `Book::generate_epub`) -/

/-- The slice of `mdbook::Config` the adapter reads: the book's declared
title (`md.config.book.title`).  `mdbook_epub::output_filename` also
consumes the config; it is an oracle below. -/
structure MdConfig where
  bookTitle : Option String

/-- A loaded `mdbook::MDBook`, restricted to what the adapter reads. -/
structure MDBookV where
  config : MdConfig

/-- Oracle bundle for the book-rendering collaborator (mdbook,
mdbook-epub, the filesystem).  `load` receives the scoped env-var pairs
because the source loads the book inside `temp_env::with_vars(env_var, ..)`;
`metadataLen` is `std::fs::metadata(..).len()`, `none` when the file does
not exist. -/
structure BookEnv where
  load : String → List (String × Option String) → Except String MDBookV
  epubGenerate : MDBookV → String → Except String Unit
  outputFilename : String → MdConfig → String
  metadataLen : String → Option Nat

/-- `Book::generate_epub` from `src/book.rs`: load the book under the
scoped env-var overrides (a load failure aborts with "Could not load
mdbook: .."); invoke the epub renderer, whose error outcome is only
logged as a warning (`if let Err(e) = .. { log::warn!(..) }`) and
otherwise discarded; then probe the expected output file — a missing
file makes `std::fs::metadata(&output_file)?` propagate an error —
and return the engine-declared title, the output filename relative to
the empty path, and the artifact byte size. -/
def generate_epub (env : BookEnv) (path : String)
    (env_var : List (String × Option String)) (dest : String) :
    Except String (Option String × String × Nat) :=
  match env.load path env_var with
  | .error e => .error ("Could not load mdbook: " ++ e)
  | .ok md =>
    let _rendered := env.epubGenerate md dest
    let output_file := env.outputFilename dest md.config
    match env.metadataLen output_file with
    | none => .error ("No such file or directory: " ++ output_file)
    | some epub_size => .ok (md.config.bookTitle, env.outputFilename "" md.config, epub_size)

/-! ## Override-sequence assembly (caller of `Book::generate_epub`) -/

/-- TOML basic-string escaping of one character, as the toml crate's
`Display` performs it for the characters the configuration format uses. -/
def tomlEscapeChar (c : Char) : String :=
  if c = '"' then "\\\""
  else if c = '\\' then "\\\\"
  else if c = '\n' then "\\n"
  else if c = '\t' then "\\t"
  else if c = '\r' then "\\r"
  else String.singleton c

/-- TOML basic-string escaping of a string. -/
def tomlEscapeStr (s : String) : String :=
  String.join (s.toList.map tomlEscapeChar)

mutual

/-- Stringification of a `toml::Value` (its `Display`): strings are
quoted and escaped (so the TOML string `""` stringifies to the two
quote characters, as `src/tests.rs` asserts for
`MDBOOK_PREPROCESSOR__X = ""`), scalars print plainly, containers
render their elements recursively. -/
def tomlValueToString : Toml → String
  | .str s => "\"" ++ tomlEscapeStr s ++ "\""
  | .int n => toString n
  | .bool b => if b then "true" else "false"
  | .arr vs => "[" ++ tomlListToString vs ++ "]"
  | .table t => "\x7b " ++ tomlTableToString t ++ " \x7d"

/-- Comma-separated stringification of a TOML array's elements. -/
def tomlListToString : List Toml → String
  | [] => ""
  | [v] => tomlValueToString v
  | v :: vs => tomlValueToString v ++ ", " ++ tomlListToString vs

/-- Comma-separated `key = value` stringification of a TOML table. -/
def tomlTableToString : List (String × Toml) → String
  | [] => ""
  | [(k, v)] => k ++ " = " ++ tomlValueToString v
  | (k, v) :: t => k ++ " = " ++ tomlValueToString v ++ ", " ++ tomlTableToString t

end

/-- The well-known book-title override variable consumed by mdbook's
config loader. -/
def bookTitleEnvKey : String := "MDBOOK_BOOK__TITLE"

/-- Modelled from the spec: the override-sequence assembly performed by
the current `run` before it calls `Book::generate_epub`.  This caller-side
assembly is missing from src/ (src/lib.rs is a superseded variant that
predates the `env_var` parameter; `src/book.rs` only receives the
sequence and `src/tests.rs` only asserts its shape).  Spec §4.2:
"overrides are assembled as an ordered sequence of name/value pairs: one
pair per entry in the config's override mapping (value stringified),
followed — if a title override is configured — by a final synthetic pair
binding a well-known 'book title' override key to that title." -/
def assembleEnvVars (rc : BookRepoConfig) : List (String × Option String) :=
  (rc.env_var.getD []).map (fun p => (p.1, some (tomlValueToString p.2))) ++
    (match rc.title with
     | some t => [(bookTitleEnvKey, some t)]
     | none => [])

/-! ## Configuration loading (`src/config.rs`, `src/main.rs`) -/

/-- First-match lookup in a TOML table (`toml::value::Table` keys are
unique, so this is `table.remove(key)`'s read observation). -/
def lookupTbl (t : List (String × Toml)) (k : String) : Option Toml :=
  match t with
  | [] => none
  | p :: rest => if p.1 = k then some p.2 else lookupTbl rest k

/-- `Value::try_into::<String>()`: only a TOML string deserializes. -/
def tryIntoString : Toml → Option String
  | .str s => some s
  | _ => none

/-- `Value::try_into::<Option<PathBuf>>()`: only a TOML string
deserializes (to `Some(path)`). -/
def tryIntoOptPath : Toml → Option (Option String)
  | .str s => some (some s)
  | _ => none

/-- `Value::try_into::<Table>()`. -/
def tryIntoTable : Toml → Option (List (String × Toml))
  | .table t => some t
  | _ => none

/-- Deserialization of one optional field of `BookRepoConfig`
(`#[serde(default)]`): a missing key yields the field default `None`; a
present value must convert, else the whole entry fails. -/
def optField {α : Type} (t : List (String × Toml)) (k : String)
    (conv : Toml → Option α) : Option (Option α) :=
  match lookupTbl t k with
  | none => some none
  | some v => (conv v).map some

/-- Deserialization of one defaultable required-type field of
`BookRepoConfig` (`#[serde(default)]`): a missing key yields the given
default; a present value must convert, else the whole entry fails. -/
def fieldOr {α : Type} (t : List (String × Toml)) (k : String)
    (conv : Toml → Option α) (dflt : α) : Option α :=
  match lookupTbl t k with
  | none => some dflt
  | some v => conv v

/-- Derived `Deserialize` for `BookRepoConfig`
(`#[serde(default, rename_all = "kebab-case")]`): fields default when
missing, but a present field of the wrong type fails the whole entry;
unknown keys are ignored. -/
def tryIntoBookRepoConfig : Toml → Option BookRepoConfig
  | .table t =>
    (optField t "title" tryIntoString).bind fun title =>
    (optField t "folder" tryIntoString).bind fun folder =>
    (fieldOr t "repo-url" tryIntoString "").bind fun repo_url =>
    (fieldOr t "url" tryIntoString "").bind fun url =>
    (optField t "env-var" tryIntoTable).map fun env_var =>
      { title := title, folder := folder, repo_url := repo_url
      , url := url, env_var := env_var }
  | _ => none

/-- `Value::try_into::<Vec<BookRepoConfig>>()`: a TOML array whose every
element deserializes. -/
def tryIntoBookConfigs : Toml → Option (List BookRepoConfig)
  | .arr vs => vs.mapM tryIntoBookRepoConfig
  | _ => none

/-- The hand-written `Deserialize for Config` (`src/config.rs`): a
non-table top level is the only error; each field is read with
`table.remove(key).and_then(|value| value.try_into().ok()).unwrap_or_default()`,
so a missing or ill-typed field silently becomes its default. -/
def configDeserialize : Toml → Except String Config
  | .table t =>
    .ok { book_repo_configs := ((lookupTbl t "book").bind tryIntoBookConfigs).getD []
        , destination_dir := ((lookupTbl t "destination-dir").bind tryIntoOptPath).getD none
        , templates_dir := ((lookupTbl t "templates-dir").bind tryIntoOptPath).getD none
        , title := ((lookupTbl t "title").bind tryIntoString).getD ""
        , working_dir := ((lookupTbl t "working-dir").bind tryIntoOptPath).getD none }
  | _ => .error "A config file should always be a toml table"

/-- `Config::from_disk` (`src/config.rs`): read the file to a string,
parse it as TOML, deserialize.  The file read and the TOML text parser
are collaborator oracles. -/
def from_disk (readToString : Except String String)
    (parseToml : String → Except String Toml) : Except String Config :=
  match readToString with
  | .error e => .error e
  | .ok s =>
    match parseToml s with
    | .error e => .error e
    | .ok v => configDeserialize v

/-- The config acquisition of `cfg` in `src/main.rs` (line 62):
`Config::from_disk(confpath).unwrap_or_default()` — any load failure is
replaced by the default `Config`. -/
def cliLoadConfig (readToString : Except String String)
    (parseToml : String → Except String Toml) : Config :=
  (from_disk readToString parseToml).toOption.getD Config.defaultValue

/-! ## Concrete fixtures (the dummy-repo data of `src/tests.rs`) -/

/-- The fixture repository URL used throughout the crate's tests. -/
def fixtureUrl : String := "https://github.com/rams3s/mdbook-dummy.git"

/-- A URL parser fixture that accepts exactly the fixture URL. -/
def fixtureParse : String → Option Url := fun s =>
  if s = fixtureUrl then some { path := "/rams3s/mdbook-dummy.git" } else none

/-- A fixture HEAD commit. -/
def fixtureCommit : GitCommit := { id := "0123abcd", seconds := 1540000000 }

/-- A git collaborator fixture in which opening fails (fresh working
dir), so the synchronizer clones. -/
def fixtureGitEnvClone : GitEnv Unit :=
  { parseUrl := fixtureParse
  , openRepo := fun _ => .error "could not find repository"
  , findRemote := fun _ _ => .error "unused"
  , fetch := fun _ _ => .ok ()
  , cloneRepo := fun _ _ => .ok ()
  , headCommit := fun _ => .ok fixtureCommit
  , toRfc3339 := fun _ => "2018-10-20T02:26:40+00:00" }

/-- A git collaborator fixture in which the destination opens as an
existing repository whose "origin" remote has the given URL. -/
def fixtureGitEnvOpen (originUrl : String) : GitEnv Unit :=
  { parseUrl := fixtureParse
  , openRepo := fun _ => .ok ()
  , findRemote := fun _ _ => .ok { url := some originUrl }
  , fetch := fun _ _ => .ok ()
  , cloneRepo := fun _ _ => .error "unused"
  , headCommit := fun _ => .ok fixtureCommit
  , toRfc3339 := fun _ => "2018-10-20T02:26:40+00:00" }

/-- A pipeline oracle fixture: synchronizing the url "bad" fails,
generating from the path "badbook" fails, everything else succeeds with
the dummy book's data. -/
def fixtureRunEnv : RunEnv :=
  { now := "2018-10-20T02:26:40+00:00"
  , sync := fun url wd =>
      if url = "bad" then .error "sync failed"
      else .ok (pathJoin wd url, "0123abcd", "2018-10-20T02:26:40+00:00")
  , generate := fun path _dest =>
      if path = "badbook" then .error "Could not load mdbook: oops"
      else .ok (some "Hello Rust", "Hello Rust.epub", 9527)
  , teraNew := fun _ => .ok ()
  , walk := fun _ => ["SUMMARY.md", "books.md"]
  , render := fun rel m => rel ++ ":" ++ m.title
  , toJsonPretty := fun m => "json:" ++ m.title }

/-- The shelf entry of `src/tests.rs` (`test_run`). -/
def fixtureBookConfig : BookRepoConfig :=
  { title := some "Hello Rust"
  , folder := some "book"
  , repo_url := fixtureUrl
  , url := "https://rams3s.github.io/mdbook-dummy/index.html"
  , env_var := some [("MDBOOK_PREPROCESSOR__X", Toml.str "")] }

/-- An entry whose synchronization fails under `fixtureRunEnv`. -/
def fixtureBadConfig : BookRepoConfig :=
  { title := none, folder := none, repo_url := "bad", url := "u", env_var := none }

/-- A bookshelf configuration with one good entry. -/
def fixtureConfig : Config :=
  { book_repo_configs := [fixtureBookConfig]
  , destination_dir := some "tests/out"
  , templates_dir := some "tests/templates"
  , title := "My eBookshelf"
  , working_dir := some "tests/repos" }

/-- A bookshelf configuration with zero entries and no templates dir. -/
def emptyShelfConfig : Config :=
  { book_repo_configs := []
  , destination_dir := some "out"
  , templates_dir := none
  , title := "shelf"
  , working_dir := some "repos" }

/-- A pipeline oracle fixture in which every entry succeeds with fixed
sync/generation data. -/
def plainRunEnv : RunEnv :=
  { now := "2018-10-20T02:26:40+00:00"
  , sync := fun _ _ => .ok ("repo", "sha", "mod")
  , generate := fun _ _ => .ok (some "Engine Title", "Engine Title.epub", 7)
  , teraNew := fun _ => .ok ()
  , walk := fun _ => []
  , render := fun _ _ => ""
  , toJsonPretty := fun _ => "" }

/-- An entry config with an explicit title override. -/
def cfgTitled : BookRepoConfig :=
  { title := some "X", folder := none, repo_url := "r", url := "u", env_var := none }

/-- A bookshelf configuration whose second entry fails to synchronize
under `fixtureRunEnv`. -/
def failMidConfig : Config :=
  { book_repo_configs := [fixtureBookConfig, fixtureBadConfig, fixtureBookConfig]
  , destination_dir := some "tests/out"
  , templates_dir := none
  , title := "My eBookshelf"
  , working_dir := some "tests/repos" }

/-- The manifest entry `fixtureRunEnv` produces for `fixtureBookConfig`. -/
def fixtureEntry : ManifestEntry :=
  { commit_sha := "0123abcd"
  , epub_size := 9527
  , last_modified := "2018-10-20T02:26:40+00:00"
  , path := "Hello Rust.epub"
  , repo_url := fixtureUrl
  , title := "Hello Rust"
  , url := "https://rams3s.github.io/mdbook-dummy/index.html" }

/-- The manifest `run` produces from `fixtureConfig` under
`fixtureRunEnv`. -/
def fixtureManifest : Manifest :=
  { entries := [fixtureEntry]
  , timestamp := "2018-10-20T02:26:40+00:00"
  , title := "My eBookshelf" }

/-- A book collaborator fixture: the dummy book loads with title "Hello
Rust", the epub renderer reports an error, and only
`tests/book/Hello Rust.epub` exists on disk. -/
def fixtureBookEnv : BookEnv :=
  { load := fun _ _ => .ok { config := { bookTitle := some "Hello Rust" } }
  , epubGenerate := fun _ _ => .error "render warning"
  , outputFilename := fun dest c => pathJoin dest ((c.bookTitle.getD "book") ++ ".epub")
  , metadataLen := fun p => if p = "tests/book/Hello Rust.epub" then some 9527 else none }

/-! ## Trace lemmas -/

theorem writesOf_append (a b : List REvent) :
    writesOf (a ++ b) = writesOf a ++ writesOf b := by
  induction a with
  | nil => simp [writesOf]
  | cons ev tr ih => cases ev <;> simp [writesOf, ih]

theorem clockReadCount_append (a b : List REvent) :
    clockReadCount (a ++ b) = clockReadCount a + clockReadCount b := by
  simp [clockReadCount, List.filter_append]

theorem entryStep_no_write (env : RunEnv) (wd dest : String) (rc : BookRepoConfig) :
    writesOf (entryStep env wd dest rc).1 = [] := by
  unfold entryStep
  cases h : env.sync rc.repo_url wd with
  | error e => simp [writesOf]
  | ok v =>
    obtain ⟨rp, sha, lm⟩ := v
    cases h2 : env.generate (match rc.folder with
      | some f => pathJoin rp f
      | none => rp) dest <;> simp [h2, writesOf]

theorem entryStep_no_clock (env : RunEnv) (wd dest : String) (rc : BookRepoConfig) :
    clockReadCount (entryStep env wd dest rc).1 = 0 := by
  unfold entryStep
  cases h : env.sync rc.repo_url wd with
  | error e => simp [clockReadCount, isClockRead]
  | ok v =>
    obtain ⟨rp, sha, lm⟩ := v
    cases h2 : env.generate (match rc.folder with
      | some f => pathJoin rp f
      | none => rp) dest <;> simp [h2, clockReadCount, isClockRead]

theorem processEntries_no_write (env : RunEnv) (wd dest : String)
    (l : List BookRepoConfig) :
    writesOf (processEntries env wd dest l).1 = [] := by
  induction l with
  | nil => simp [processEntries, writesOf]
  | cons rc rest ih =>
    have hw := entryStep_no_write env wd dest rc
    simp only [processEntries]
    cases h : entryStep env wd dest rc with
    | mk tr res =>
      rw [h] at hw
      cases res with
      | error e => simpa using hw
      | ok entry =>
        cases h2 : processEntries env wd dest rest with
        | mk tr2 res2 =>
          rw [h2] at ih
          cases res2 <;> simp [writesOf_append, hw, ih]

theorem processEntries_no_clock (env : RunEnv) (wd dest : String)
    (l : List BookRepoConfig) :
    clockReadCount (processEntries env wd dest l).1 = 0 := by
  induction l with
  | nil => simp [processEntries, clockReadCount]
  | cons rc rest ih =>
    have hc := entryStep_no_clock env wd dest rc
    simp only [processEntries]
    cases h : entryStep env wd dest rc with
    | mk tr res =>
      rw [h] at hc
      cases res with
      | error e => simpa using hc
      | ok entry =>
        cases h2 : processEntries env wd dest rest with
        | mk tr2 res2 =>
          rw [h2] at ih
          cases res2 <;> simp [clockReadCount_append, hc, ih]

theorem writesOf_map_write (l : List String) (f g : String → String) :
    writesOf (l.map fun rel => REvent.write (f rel) (g rel)) =
      l.map fun rel => (f rel, g rel) := by
  induction l with
  | nil => simp [writesOf]
  | cons x xs ih => simp [writesOf, ih]

theorem clockReadCount_map_write (l : List String) (f g : String → String) :
    clockReadCount (l.map fun rel => REvent.write (f rel) (g rel)) = 0 := by
  induction l with
  | nil => simp [clockReadCount]
  | cons x xs ih => simp [clockReadCount, isClockRead] at ih ⊢

theorem clockReadCount_clockRead_cons (tr : List REvent) :
    clockReadCount (REvent.clockRead :: tr) = clockReadCount tr + 1 := by
  simp [clockReadCount, isClockRead, Nat.add_comm]

/-- Every successful `clone_or_fetch_repo` returns the destination
computed by `syncDest` from the parser, the working dir and the url
alone — the git oracles never change it. -/
theorem clone_or_fetch_repo_ok_dest {ρ : Type} (env : GitEnv ρ) (url wd d s m : String)
    (h : (clone_or_fetch_repo env url wd).2 = .ok (d, s, m)) :
    d = syncDest env.parseUrl wd url := by
  simp only [clone_or_fetch_repo] at h
  repeat' split at h
  all_goals simp_all

/-! ## Claim theorems -/

/-- C3: the local synchronization destination is a deterministic pure
function of the input string and the working directory: a parsed URL
maps to `working_dir / url.path[1..]`, a non-URL input maps to
`working_dir / input`, and any two synchronizations of the same input
against the same working directory (whatever the state of the git
collaborator) resolve to the same destination. -/
theorem sync_dest_pure_function (parse : String → Option Url) (wd url : String) :
    (∀ u, parse url = some u →
       syncDest parse wd url = pathJoin wd (u.path.drop 1))
  ∧ (parse url = none → syncDest parse wd url = pathJoin wd url)
  ∧ (∀ (ρ : Type) (env : GitEnv ρ), env.parseUrl = parse →
       ∀ d s m, (clone_or_fetch_repo env url wd).2 = Except.ok (d, s, m) →
         d = syncDest parse wd url)
  ∧ (∀ (ρ₁ ρ₂ : Type) (env₁ : GitEnv ρ₁) (env₂ : GitEnv ρ₂),
       env₁.parseUrl = parse → env₂.parseUrl = parse →
       ∀ d₁ s₁ m₁ d₂ s₂ m₂,
         (clone_or_fetch_repo env₁ url wd).2 = Except.ok (d₁, s₁, m₁) →
         (clone_or_fetch_repo env₂ url wd).2 = Except.ok (d₂, s₂, m₂) →
         d₁ = d₂) := by
  refine ⟨?_, ?_, ?_, ?_⟩
  · intro u hu; simp [syncDest, hu]
  · intro hn; simp [syncDest, hn]
  · intro ρ env henv d s m h
    have hd := clone_or_fetch_repo_ok_dest env url wd d s m h
    rwa [henv] at hd
  · intro ρ₁ ρ₂ env₁ env₂ h1 h2 d₁ s₁ m₁ d₂ s₂ m₂ hr1 hr2
    have e1 := clone_or_fetch_repo_ok_dest env₁ url wd d₁ s₁ m₁ hr1
    have e2 := clone_or_fetch_repo_ok_dest env₂ url wd d₂ s₂ m₂ hr2
    rw [h1] at e1
    rw [h2] at e2
    rw [e1, e2]

/-- Witness for C3 at the fixture URL and the parser fixture. -/
theorem sync_dest_pure_function_witness :
    fixtureParse fixtureUrl = some { path := "/rams3s/mdbook-dummy.git" } ∧
    syncDest fixtureParse "repos" fixtureUrl =
      pathJoin "repos" (("/rams3s/mdbook-dummy.git").drop 1) ∧
    "repos/rams3s/mdbook-dummy.git" = syncDest fixtureParse "repos" fixtureUrl := by
  refine ⟨by rfl, ?_, ?_⟩
  · exact (sync_dest_pure_function fixtureParse "repos" fixtureUrl).1
      { path := "/rams3s/mdbook-dummy.git" } (by rfl)
  · exact (sync_dest_pure_function fixtureParse "repos" fixtureUrl).2.2.1
      Unit fixtureGitEnvClone rfl "repos/rams3s/mdbook-dummy.git" "0123abcd"
      "2018-10-20T02:26:40+00:00" (by rfl)

/-- C6: when the destination opens as an existing repository, the
requested URL is asserted against the "origin" remote's URL: on mismatch
the synchronizer panics without fetching (no fetch event in the trace);
only when they are equal is the `master` branch fetched. -/
theorem origin_url_mismatch_fails_before_fetch {ρ : Type} (env : GitEnv ρ)
    (url wd : String) (repo : ρ) (remote : GitRemote) (rurl : String)
    (hopen : env.openRepo (syncDest env.parseUrl wd url) = .ok repo)
    (hremote : env.findRemote repo "origin" = .ok remote)
    (hurl : remote.url = some rurl) :
    (rurl ≠ url →
       (clone_or_fetch_repo env url wd).2 = .error (GitErr.panicked remoteMismatchMsg) ∧
       (clone_or_fetch_repo env url wd).1 =
         [GitEvent.openR (syncDest env.parseUrl wd url)])
  ∧ (rurl = url →
       (clone_or_fetch_repo env url wd).1 =
         [GitEvent.openR (syncDest env.parseUrl wd url),
          GitEvent.fetchB rurl ["master"]]) := by
  constructor
  · intro hne
    constructor <;> simp [clone_or_fetch_repo, hopen, hremote, hurl, hne]
  · intro heq
    rcases hf : env.fetch remote ["master"] with e | u
    · simp [clone_or_fetch_repo, hopen, hremote, hurl, heq, hf]
    · rcases hh : env.headCommit repo with e2 | c <;>
        simp [clone_or_fetch_repo, hopen, hremote, hurl, heq, hf, hh]

/-- Witness for C6: a mismatching origin panics without a fetch event; a
matching origin fetches `master`. -/
theorem origin_url_mismatch_witness :
    (clone_or_fetch_repo (fixtureGitEnvOpen "https://example.com/other.git")
        fixtureUrl "repos").2 = .error (GitErr.panicked remoteMismatchMsg) ∧
    (clone_or_fetch_repo (fixtureGitEnvOpen "https://example.com/other.git")
        fixtureUrl "repos").1 = [GitEvent.openR "repos/rams3s/mdbook-dummy.git"] ∧
    (clone_or_fetch_repo (fixtureGitEnvOpen fixtureUrl) fixtureUrl "repos").1 =
      [GitEvent.openR "repos/rams3s/mdbook-dummy.git",
       GitEvent.fetchB fixtureUrl ["master"]] := by
  have hm := (origin_url_mismatch_fails_before_fetch
      (fixtureGitEnvOpen "https://example.com/other.git") fixtureUrl "repos" ()
      { url := some "https://example.com/other.git" } "https://example.com/other.git"
      rfl rfl rfl).1 (by decide)
  have he := (origin_url_mismatch_fails_before_fetch
      (fixtureGitEnvOpen fixtureUrl) fixtureUrl "repos" ()
      { url := some fixtureUrl } fixtureUrl rfl rfl rfl).2 rfl
  exact ⟨hm.1, hm.2, he⟩

/-- C4: the final manifest title of an entry is resolved by precedence
config title > engine-reported title > empty string, and absence of both
titles is never a failure. -/
theorem manifest_title_precedence (env : RunEnv) (wd dest : String) (rc : BookRepoConfig)
    (rp sha lm : String) (bt : Option String) (op : String) (sz : Nat)
    (hsync : env.sync rc.repo_url wd = .ok (rp, sha, lm))
    (hgen : env.generate (match rc.folder with
        | some f => pathJoin rp f
        | none => rp) dest = .ok (bt, op, sz)) :
    (entryStep env wd dest rc).2.isOk = true
  ∧ (∀ e, (entryStep env wd dest rc).2 = .ok e → e.title = resolveTitle rc.title bt)
  ∧ (∀ x o, resolveTitle (some x) o = x)
  ∧ (∀ y, resolveTitle none (some y) = y)
  ∧ resolveTitle none none = "" := by
  refine ⟨?_, ?_, fun x o => rfl, fun y => rfl, rfl⟩
  · simp [entryStep, hsync, hgen, Except.isOk, Except.toBool]
  · intro e he
    simp [entryStep, hsync, hgen] at he
    rw [← he]

/-- Witness for C4: with config title "X" and engine title "Engine
Title", the entry resolves to "X". -/
theorem manifest_title_precedence_witness :
    (entryStep plainRunEnv "w" "d" cfgTitled).2.isOk = true
  ∧ (∀ e, (entryStep plainRunEnv "w" "d" cfgTitled).2 = .ok e →
      e.title = resolveTitle (some "X") (some "Engine Title"))
  ∧ resolveTitle (some "X") (some "Engine Title") = "X" := by
  have h := manifest_title_precedence plainRunEnv "w" "d" cfgTitled
    "repo" "sha" "mod" (some "Engine Title") "Engine Title.epub" 7 (by rfl) (by rfl)
  exact ⟨h.1, fun e he => h.2.1 e he, h.2.2.1 "X" (some "Engine Title")⟩

/-- C5: in the generation adapter a render-step error does not abort the
entry (the adapter still probes for the output artifact and succeeds
when it exists), but a missing expected output file makes the adapter
return an error. -/
theorem generate_epub_warn_and_probe (env : BookEnv) (path : String)
    (ev : List (String × Option String)) (dest : String) (md : MDBookV)
    (hload : env.load path ev = .ok md) :
    (∀ ge, env.epubGenerate md dest = .error ge →
       ∀ n, env.metadataLen (env.outputFilename dest md.config) = some n →
         generate_epub env path ev dest =
           .ok (md.config.bookTitle, env.outputFilename "" md.config, n))
  ∧ (env.metadataLen (env.outputFilename dest md.config) = none →
       generate_epub env path ev dest =
         .error ("No such file or directory: " ++ env.outputFilename dest md.config)) := by
  constructor
  · intro ge hge n hn
    simp [generate_epub, hload, hn]
  · intro hn
    simp [generate_epub, hload, hn]

/-- Witness for C5: under `fixtureBookEnv` the renderer errors, yet
generation succeeds where the artifact exists and fails where it does
not. -/
theorem generate_epub_warn_and_probe_witness :
    generate_epub fixtureBookEnv "tests/dummy" [] "tests/book" =
      .ok (some "Hello Rust", "Hello Rust.epub", 9527) ∧
    generate_epub fixtureBookEnv "tests/dummy" [] "elsewhere" =
      .error ("No such file or directory: " ++ "elsewhere/Hello Rust.epub") := by
  have h1 := generate_epub_warn_and_probe fixtureBookEnv "tests/dummy" [] "tests/book"
    { config := { bookTitle := some "Hello Rust" } } rfl
  have h2 := generate_epub_warn_and_probe fixtureBookEnv "tests/dummy" [] "elsewhere"
    { config := { bookTitle := some "Hello Rust" } } rfl
  exact ⟨h1.1 "render warning" rfl 9527 (by rfl), h2.2 (by rfl)⟩

/-- C7: the override sequence handed to the rendering engine is one
(name, stringified value) pair per entry of the config's override
mapping, followed — exactly when a title override is configured — by a
final pair binding `MDBOOK_BOOK__TITLE` to that title, which is then the
last element of the sequence. -/
theorem override_sequence_assembly :
    (∀ rc tbl t, rc.env_var = some tbl → rc.title = some t →
       assembleEnvVars rc =
         tbl.map (fun p => (p.1, some (tomlValueToString p.2))) ++
           [(bookTitleEnvKey, some t)]
       ∧ (assembleEnvVars rc).getLast? = some (bookTitleEnvKey, some t))
  ∧ (∀ rc tbl, rc.env_var = some tbl → rc.title = none →
       assembleEnvVars rc = tbl.map (fun p => (p.1, some (tomlValueToString p.2))))
  ∧ (∀ rc t, rc.env_var = none → rc.title = some t →
       assembleEnvVars rc = [(bookTitleEnvKey, some t)])
  ∧ (∀ rc, rc.env_var = none → rc.title = none → assembleEnvVars rc = []) := by
  refine ⟨?_, ?_, ?_, ?_⟩
  · intro rc tbl t hv ht
    constructor
    · simp [assembleEnvVars, hv, ht]
    · simp [assembleEnvVars, hv, ht]
  · intro rc tbl hv ht
    simp [assembleEnvVars, hv, ht]
  · intro rc t hv ht
    simp [assembleEnvVars, hv, ht]
  · intro rc hv ht
    simp [assembleEnvVars, hv, ht]

/-- Witness for C7: the `src/tests.rs` entry (override mapping
`MDBOOK_PREPROCESSOR__X = ""`, title "Hello Rust") produces exactly the
two pairs the test asserts, title pair last. -/
theorem override_sequence_assembly_witness :
    assembleEnvVars fixtureBookConfig =
      [("MDBOOK_PREPROCESSOR__X", some "\"\""), (bookTitleEnvKey, some "Hello Rust")] ∧
    (assembleEnvVars fixtureBookConfig).getLast? = some (bookTitleEnvKey, some "Hello Rust") := by
  have h := override_sequence_assembly.1 fixtureBookConfig
    [("MDBOOK_PREPROCESSOR__X", Toml.str "")] "Hello Rust" rfl rfl
  constructor
  · rw [h.1]; rfl
  · exact h.2

/-- C10: deserializing any top-level TOML table into `Config` succeeds,
with each absent or ill-typed field silently replaced by its default,
and the CLI replaces a missing or unreadable config file by the default
`Config`. -/
theorem config_deserialize_tolerant :
    (∀ t, (configDeserialize (Toml.table t)).isOk = true)
  ∧ (∀ t c, configDeserialize (Toml.table t) = .ok c →
       ((lookupTbl t "title").bind tryIntoString = none → c.title = "")
       ∧ ((lookupTbl t "book").bind tryIntoBookConfigs = none → c.book_repo_configs = [])
       ∧ ((lookupTbl t "destination-dir").bind tryIntoOptPath = none →
            c.destination_dir = none)
       ∧ ((lookupTbl t "templates-dir").bind tryIntoOptPath = none →
            c.templates_dir = none)
       ∧ ((lookupTbl t "working-dir").bind tryIntoOptPath = none →
            c.working_dir = none))
  ∧ (∀ e parse, cliLoadConfig (Except.error e) parse = Config.defaultValue) := by
  refine ⟨?_, ?_, fun e parse => rfl⟩
  · intro t
    simp [configDeserialize, Except.isOk, Except.toBool]
  · intro t c hc
    simp only [configDeserialize, Except.ok.injEq] at hc
    subst hc
    refine ⟨fun h => ?_, fun h => ?_, fun h => ?_, fun h => ?_, fun h => ?_⟩ <;>
      simp [h]

/-- Witness for C10: a table whose `title`, `book` and `destination-dir`
are all ill-typed still deserializes (to the default config), and a
missing config file yields the default config. -/
theorem config_deserialize_tolerant_witness :
    (configDeserialize (Toml.table [("title", Toml.int 3), ("book", Toml.str "x"),
        ("destination-dir", Toml.bool true)])).isOk = true
  ∧ Config.defaultValue.title = ""
  ∧ Config.defaultValue.book_repo_configs = []
  ∧ cliLoadConfig (Except.error "No such file or directory")
      (fun _ => Except.error "unused") = Config.defaultValue := by
  have h1 := config_deserialize_tolerant.1
    [("title", Toml.int 3), ("book", Toml.str "x"), ("destination-dir", Toml.bool true)]
  have h2 := config_deserialize_tolerant.2.1
    [("title", Toml.int 3), ("book", Toml.str "x"), ("destination-dir", Toml.bool true)]
    Config.defaultValue (by rfl)
  have h3 := config_deserialize_tolerant.2.2 "No such file or directory"
    (fun _ => Except.error "unused")
  exact ⟨h1, h2.1 (by rfl), h2.2.1 (by rfl), h3⟩

/-- Prepending entries that all succeed preserves a failing tail: the
combined run still fails with the tail's error and its trace is the
prefix work followed by the tail's trace. -/
theorem processEntries_append_error (env : RunEnv) (wd dest : String)
    (l : List BookRepoConfig) (e : String)
    (herr : (processEntries env wd dest l).2 = .error e) :
    ∀ early : List BookRepoConfig,
      (∀ rc ∈ early, ((entryStep env wd dest rc).2).isOk = true) →
      (processEntries env wd dest (early ++ l)).2 = .error e ∧
      (processEntries env wd dest (early ++ l)).1 =
        (early.flatMap fun rc => (entryStep env wd dest rc).1) ++
          (processEntries env wd dest l).1 := by
  intro early
  induction early with
  | nil => intro _; simp [herr]
  | cons rc early ih =>
    intro hok
    have hokrc := hok rc (List.mem_cons_self rc early)
    obtain ⟨entry, hentry⟩ : ∃ entry, (entryStep env wd dest rc).2 = .ok entry := by
      cases hres : (entryStep env wd dest rc).2 with
      | error e2 =>
        rw [hres] at hokrc
        simp [Except.isOk, Except.toBool] at hokrc
      | ok v => exact ⟨v, rfl⟩
    have ihh := ih fun rc2 h2 => hok rc2 (List.mem_cons_of_mem rc h2)
    simp only [List.cons_append, processEntries]
    cases hstep : entryStep env wd dest rc with
    | mk tr res =>
      rw [hstep] at hentry
      simp only at hentry
      subst hentry
      cases hpe2 : processEntries env wd dest (early ++ l) with
      | mk tr2 res2 =>
        rw [hpe2] at ihh
        obtain ⟨ih1, ih2⟩ := ihh
        simp only at ih1 ih2
        subst ih1
        simp [List.flatMap_cons, hstep, ih2, List.append_assoc]

/-- A successful entry loop yields exactly one manifest entry per
config, in configuration order. -/
theorem processEntries_ok_get (env : RunEnv) (wd dest : String)
    (l : List BookRepoConfig) (es : List ManifestEntry)
    (h : (processEntries env wd dest l).2 = .ok es) :
    es.length = l.length ∧
    ∀ i (hi : i < es.length) (hl : i < l.length),
      (entryStep env wd dest (l.get ⟨i, hl⟩)).2 = .ok (es.get ⟨i, hi⟩) := by
  induction l generalizing es with
  | nil =>
    simp [processEntries] at h
    subst h
    simp
  | cons rc rest ih =>
    simp only [processEntries] at h
    cases hstep : entryStep env wd dest rc with
    | mk tr res =>
      rw [hstep] at h
      cases res with
      | error e => simp at h
      | ok entry =>
        cases hpe : processEntries env wd dest rest with
        | mk tr2 res2 =>
          rw [hpe] at h
          cases res2 with
          | error e => simp at h
          | ok es2 =>
            simp only [Except.ok.injEq] at h
            subst h
            obtain ⟨ihlen, ihget⟩ := ih es2 (by rw [hpe])
            refine ⟨by simp [ihlen], ?_⟩
            intro i hi hl
            cases i with
            | zero => simp [hstep]
            | succ n =>
              simpa using ihget n (by simpa using hi) (by simpa using hl)

/-- C1: the pipeline short-circuits — when every entry before position i
succeeds and the entry at position i fails in the synchronizer or the
generation adapter, `run` returns that error, its trace covers exactly
the entries up to and including i (nothing later is synchronized or
generated), and no file is written (no JSON manifest, no rendered
template) and no `Manifest` value is returned. -/
theorem run_short_circuits_on_entry_failure (env : RunEnv) (config : Config)
    (dest wd : String) (early rest : List BookRepoConfig) (c : BookRepoConfig) (e : String)
    (hd : config.destination_dir = some dest) (hw : config.working_dir = some wd)
    (hcfg : config.book_repo_configs = early ++ c :: rest)
    (hok : ∀ rc ∈ early, ((entryStep env wd dest rc).2).isOk = true)
    (hfail : (entryStep env wd dest c).2 = .error e) :
    (run env config).2 = .error e
  ∧ (run env config).1 =
      REvent.clockRead ::
        ((early.flatMap fun rc => (entryStep env wd dest rc).1) ++
          (entryStep env wd dest c).1)
  ∧ writesOf (run env config).1 = [] := by
  have hcr : processEntries env wd dest (c :: rest) =
      ((entryStep env wd dest c).1, .error e) := by
    simp only [processEntries]
    cases hstep : entryStep env wd dest c with
    | mk tr res =>
      rw [hstep] at hfail
      simp only at hfail
      subst hfail
      simp [hstep]
  have hall := processEntries_append_error env wd dest (c :: rest) e
    (by rw [hcr]) early hok
  rw [hcr] at hall
  obtain ⟨h2, h1⟩ := hall
  cases hpe : processEntries env wd dest (early ++ c :: rest) with
  | mk tr res =>
    rw [hpe] at h1 h2
    simp only at h1 h2
    subst h2
    have hnw := processEntries_no_write env wd dest (early ++ c :: rest)
    rw [hpe] at hnw
    simp only at hnw
    refine ⟨?_, ?_, ?_⟩
    · simp [run, hd, hw, hcfg, hpe]
    · simp [run, hd, hw, hcfg, hpe, h1]
    · simp [run, hd, hw, hcfg, hpe, writesOf, hnw]

/-- Witness for C1: with a good entry, then one whose synchronization
fails, then another good one, `run` fails with the sync error and writes
nothing. -/
theorem run_short_circuits_witness :
    (run fixtureRunEnv failMidConfig).2 = .error "sync failed"
  ∧ writesOf (run fixtureRunEnv failMidConfig).1 = [] := by
  have h := run_short_circuits_on_entry_failure fixtureRunEnv failMidConfig
    "tests/out" "tests/repos" [fixtureBookConfig] [fixtureBookConfig] fixtureBadConfig
    "sync failed" rfl rfl rfl
    (by
      intro rc hrc
      simp only [List.mem_singleton] at hrc
      subst hrc
      rfl)
    (by rfl)
  exact ⟨h.1, h.2.2⟩

/-- C2, counterexample: with an empty config sequence `run` does not
return an error — it succeeds with a manifest that has no entries. -/
theorem run_empty_configs_cex :
    (run fixtureRunEnv emptyShelfConfig).2 =
      .ok { entries := [], timestamp := "2018-10-20T02:26:40+00:00", title := "shelf" } := by
  rfl

/-- C2, amended: with an empty config sequence the pipeline succeeds
rather than failing: `run` returns a manifest with zero entries, and (in
JSON mode) still writes the empty manifest to `manifest.json`. -/
theorem run_empty_configs_succeeds (env : RunEnv) (config : Config) (dest wd : String)
    (hd : config.destination_dir = some dest) (hw : config.working_dir = some wd)
    (hcfg : config.book_repo_configs = []) (htpl : config.templates_dir = none) :
    (run env config).2 = .ok { entries := [], timestamp := env.now, title := config.title }
  ∧ writesOf (run env config).1 =
      [(pathJoin dest "manifest.json",
        env.toJsonPretty { entries := [], timestamp := env.now, title := config.title })] := by
  simp [run, hd, hw, hcfg, htpl, processEntries, writesOf]

/-- Witness for C2's amended claim at the concrete empty shelf. -/
theorem run_empty_configs_succeeds_witness :
    (run fixtureRunEnv emptyShelfConfig).2 =
      .ok { entries := [], timestamp := "2018-10-20T02:26:40+00:00", title := "shelf" }
  ∧ writesOf (run fixtureRunEnv emptyShelfConfig).1 = [("out/manifest.json", "json:shelf")] := by
  have h := run_empty_configs_succeeds fixtureRunEnv emptyShelfConfig "out" "repos"
    rfl rfl rfl rfl
  exact ⟨h.1, h.2⟩

/-- C8: output mode is selected solely by whether a templates directory
is configured, and the modes are mutually exclusive: in template mode
the writes are exactly one rendered file (with the manifest as context)
per walked non-directory template, at the same relative path under the
destination; in JSON mode the single write is the pretty-printed
manifest at the fixed name `manifest.json` in the destination. -/
theorem output_mode_selection (env : RunEnv) (config : Config) (dest wd : String)
    (tr : List REvent) (entries : List ManifestEntry)
    (hd : config.destination_dir = some dest) (hw : config.working_dir = some wd)
    (hpe : processEntries env wd dest config.book_repo_configs = (tr, .ok entries)) :
    (∀ tdir, config.templates_dir = some tdir →
       env.teraNew (pathJoin tdir "**/*") = .ok () →
       (run env config).2 =
         .ok { entries := entries, timestamp := env.now, title := config.title }
       ∧ writesOf (run env config).1 =
           (env.walk tdir).map (fun rel =>
             (pathJoin dest rel,
              env.render rel { entries := entries, timestamp := env.now, title := config.title })))
  ∧ (config.templates_dir = none →
       (run env config).2 =
         .ok { entries := entries, timestamp := env.now, title := config.title }
       ∧ writesOf (run env config).1 =
           [(pathJoin dest "manifest.json",
             env.toJsonPretty
               { entries := entries, timestamp := env.now, title := config.title })]) := by
  have hnw := processEntries_no_write env wd dest config.book_repo_configs
  rw [hpe] at hnw
  simp only at hnw
  constructor
  · intro tdir htpl htera
    constructor
    · simp [run, hd, hw, hpe, htpl, htera]
    · simp [run, hd, hw, hpe, htpl, htera, writesOf, writesOf_append, hnw,
        writesOf_map_write]
  · intro htpl
    constructor
    · simp [run, hd, hw, hpe, htpl]
    · simp [run, hd, hw, hpe, htpl, writesOf, writesOf_append, hnw]

/-- Witness for C8: the fixture shelf in template mode writes the two
rendered templates and none else; the empty shelf in JSON mode writes
exactly `manifest.json`. -/
theorem output_mode_selection_witness :
    (run fixtureRunEnv fixtureConfig).2 = .ok fixtureManifest
  ∧ writesOf (run fixtureRunEnv fixtureConfig).1 =
      [("tests/out/SUMMARY.md", "SUMMARY.md:My eBookshelf"),
       ("tests/out/books.md", "books.md:My eBookshelf")]
  ∧ writesOf (run fixtureRunEnv emptyShelfConfig).1 =
      [("out/manifest.json", "json:shelf")] := by
  have h := (output_mode_selection fixtureRunEnv fixtureConfig "tests/out" "tests/repos"
    [REvent.syncE fixtureUrl "tests/repos",
     REvent.genE "tests/repos/https://github.com/rams3s/mdbook-dummy.git/book" "tests/out"]
    [fixtureEntry] rfl rfl (by rfl)).1 "tests/templates" rfl rfl
  have h2 := (output_mode_selection fixtureRunEnv emptyShelfConfig "out" "repos"
    [] [] rfl rfl (by rfl)).2 rfl
  exact ⟨h.1, h.2, h2.2⟩

/-- C9: a manifest returned by `run` has its build timestamp captured by
the single clock read, which happens first in the trace (before any
entry is processed), its shelf title copied from the top-level config,
and one entry per config in configuration order. -/
theorem manifest_shape_and_timestamp (env : RunEnv) (config : Config)
    (dest wd : String) (m : Manifest)
    (hd : config.destination_dir = some dest) (hw : config.working_dir = some wd)
    (hok : (run env config).2 = .ok m) :
    m.timestamp = env.now
  ∧ m.title = config.title
  ∧ m.entries.length = config.book_repo_configs.length
  ∧ (∀ i (hi : i < m.entries.length) (hl : i < config.book_repo_configs.length),
       (entryStep env wd dest (config.book_repo_configs.get ⟨i, hl⟩)).2 =
         .ok (m.entries.get ⟨i, hi⟩))
  ∧ (run env config).1.head? = some REvent.clockRead
  ∧ clockReadCount (run env config).1 = 1 := by
  have hnc := processEntries_no_clock env wd dest config.book_repo_configs
  cases hpe : processEntries env wd dest config.book_repo_configs with
  | mk tr res =>
    rw [hpe] at hnc
    simp only at hnc
    cases res with
    | error e =>
      exfalso
      simp [run, hd, hw, hpe] at hok
    | ok entries =>
      have hget := processEntries_ok_get env wd dest config.book_repo_configs entries
        (by rw [hpe])
      cases htpl : config.templates_dir with
      | none =>
        have hm : m = { entries := entries, timestamp := env.now, title := config.title } := by
          simp [run, hd, hw, hpe, htpl] at hok
          exact hok.symm
        subst hm
        refine ⟨rfl, rfl, hget.1, hget.2, ?_, ?_⟩
        · simp [run, hd, hw, hpe, htpl]
        · have htr : (run env config).1 =
              REvent.clockRead ::
                (tr ++ [REvent.write (pathJoin dest "manifest.json")
                  (env.toJsonPretty
                    { entries := entries, timestamp := env.now, title := config.title })]) := by
            simp [run, hd, hw, hpe, htpl]
          rw [htr, clockReadCount_clockRead_cons, clockReadCount_append, hnc]
          rfl
      | some tdir =>
        cases htera : env.teraNew (pathJoin tdir "**/*") with
        | error e =>
          exfalso
          simp [run, hd, hw, hpe, htpl, htera] at hok
        | ok u =>
          cases u
          have hm : m = { entries := entries, timestamp := env.now, title := config.title } := by
            simp [run, hd, hw, hpe, htpl, htera] at hok
            exact hok.symm
          subst hm
          refine ⟨rfl, rfl, hget.1, hget.2, ?_, ?_⟩
          · simp [run, hd, hw, hpe, htpl, htera]
          · have htr : (run env config).1 =
                REvent.clockRead ::
                  (tr ++ (env.walk tdir).map (fun rel =>
                    REvent.write (pathJoin dest rel)
                      (env.render rel
                        { entries := entries, timestamp := env.now,
                          title := config.title }))) := by
              simp [run, hd, hw, hpe, htpl, htera]
            rw [htr, clockReadCount_clockRead_cons, clockReadCount_append, hnc,
              clockReadCount_map_write]

/-- Witness for C9 at the fixture shelf: the returned manifest carries
the clock value, the config title, one entry for the one config, and the
trace starts with its only clock read. -/
theorem manifest_shape_and_timestamp_witness :
    fixtureManifest.timestamp = fixtureRunEnv.now
  ∧ fixtureManifest.title = fixtureConfig.title
  ∧ fixtureManifest.entries.length = fixtureConfig.book_repo_configs.length
  ∧ (run fixtureRunEnv fixtureConfig).1.head? = some REvent.clockRead
  ∧ clockReadCount (run fixtureRunEnv fixtureConfig).1 = 1 := by
  have h := manifest_shape_and_timestamp fixtureRunEnv fixtureConfig
    "tests/out" "tests/repos" fixtureManifest rfl rfl (by rfl)
  exact ⟨h.1, h.2.1, h.2.2.1, h.2.2.2.2.1, h.2.2.2.2.2⟩

end Mdbookshelf
